import Mathlib

/-!
Verification of the Tree-Cloud-Drive background-worker core and its UI
callers.

The worker engine (`core/workers.py`: `CancellationToken`, `WorkContext`,
`WorkRequest`, `Worker`, `WorkerPool`) is not present in the source tree;
only its callers in `main_window.py` are.  The engine is therefore
modelled from the specification (sections 3 to 5): a task body is a finite
list of steps (checkpoints, progress emissions, opaque work) followed by a
normal return or a failure; cancellation is a point in the step sequence
from which the shared token reads true; the harness runs the steps and
delivers progress notifications followed by exactly one terminal
notification.

`main_window.py`, `core/single_instance.py` and `core/exceptions.py` are
embedded directly from the source.
-/

namespace TreeCloudDrive

/-- Modelled from the spec: one step of a task body.  `checkpoint` is a
`ctx.check_cancelled()` call, `progress` a `ctx.progress(percent, message)`
call, `sleep` any opaque blocking work. -/
inductive TaskStep where
  | checkpoint
  | progress (percent : Nat) (message : String)
  | sleep
deriving DecidableEq

/-- Modelled from the spec: how a task body ends when it runs to the end of
its steps: a normal return or a raised failure with a message. -/
inductive TaskOutcome (T : Type) where
  | ret (v : T)
  | raiseErr (message : String)
deriving DecidableEq

/-- Modelled from the spec: a task body, the function passed as `fn` to a
`WorkRequest`: its observable interactions with the `WorkContext` in order,
and its final outcome. -/
structure TaskBody (T : Type) where
  steps : List TaskStep
  outcome : TaskOutcome T

/-- Modelled from the spec: a Worker's terminal result. -/
inductive Terminal (T : Type) where
  | done (v : T)
  | errored (message : String)
  | cancelled
deriving DecidableEq

/-- Modelled from the spec: one callback invocation delivered to the caller
on the main thread. -/
inductive CallbackEvent (T : Type) where
  | onProgress (percent : Nat) (message : String)
  | onDone (v : T)
  | onError (message : String)
  | onCancel
deriving DecidableEq

/-- Whether a callback invocation is terminal (`on_done`, `on_error` or
`on_cancel`, as opposed to `on_progress`). -/
def CallbackEvent.isTerminal {T : Type} : CallbackEvent T → Bool
  | CallbackEvent.onProgress _ _ => false
  | CallbackEvent.onDone _ => true
  | CallbackEvent.onError _ => true
  | CallbackEvent.onCancel => true

/-- Modelled from the spec: the `CancellationToken` read by step `i` of the
task body.  `cancelAt = some c` means `cancel()` was called just before the
body executed its step number `c`; `none` means it is never called. -/
def flagSet (cancelAt : Option Nat) (i : Nat) : Bool :=
  match cancelAt with
  | none => false
  | some c => decide (c ≤ i)

/-- Modelled from the spec: the distinguished operation-cancelled condition
signalled by `WorkContext.check_cancelled`. -/
inductive CancelSignal where
  | operationCancelled
deriving DecidableEq

/-- Modelled from the spec: `WorkContext.check_cancelled` over the current
token flag: returns normally when the flag is clear, signals the
distinguished cancellation condition when it is set. -/
def check_cancelled (flag : Bool) : Except CancelSignal Unit :=
  if flag then Except.error CancelSignal.operationCancelled else Except.ok ()

/-- Modelled from the spec: running the steps of a task body from step
index `i`: the progress notifications queued in emission order, and whether
a checkpoint observed the cancellation signal (unwinding the body). -/
def runSteps (cancelAt : Option Nat) : List TaskStep → Nat → List (Nat × String) × Bool
  | [], _ => ([], false)
  | TaskStep.checkpoint :: rest, i =>
      match check_cancelled (flagSet cancelAt i) with
      | Except.error _ => ([], true)
      | Except.ok _ => runSteps cancelAt rest (i + 1)
  | TaskStep.progress p m :: rest, i =>
      ((p, m) :: (runSteps cancelAt rest (i + 1)).1, (runSteps cancelAt rest (i + 1)).2)
  | TaskStep.sleep :: rest, i => runSteps cancelAt rest (i + 1)

/-- The terminal result of a body that ran to the end of its steps. -/
def outcomeTerminal {T : Type} : TaskOutcome T → Terminal T
  | TaskOutcome.ret v => Terminal.done v
  | TaskOutcome.raiseErr m => Terminal.errored m

/-- Modelled from the spec: one full Worker execution as the harness sees
it: the queued progress notifications and the single terminal result. -/
def runBody {T : Type} (b : TaskBody T) (cancelAt : Option Nat) :
    List (Nat × String) × Terminal T :=
  ((runSteps cancelAt b.steps 0).1,
    if (runSteps cancelAt b.steps 0).2 then Terminal.cancelled
    else outcomeTerminal b.outcome)

/-- The terminal callback invocation for a terminal result. -/
def terminalEvent {T : Type} : Terminal T → CallbackEvent T
  | Terminal.done v => CallbackEvent.onDone v
  | Terminal.errored m => CallbackEvent.onError m
  | Terminal.cancelled => CallbackEvent.onCancel

/-- Modelled from the spec: the callback invocations delivered to the main
thread, in delivery order, as the body executes from step index `i`. -/
def runEvents {T : Type} (cancelAt : Option Nat) (outcome : TaskOutcome T) :
    List TaskStep → Nat → List (CallbackEvent T)
  | [], _ => [terminalEvent (outcomeTerminal outcome)]
  | TaskStep.checkpoint :: rest, i =>
      match check_cancelled (flagSet cancelAt i) with
      | Except.error _ => [CallbackEvent.onCancel]
      | Except.ok _ => runEvents cancelAt outcome rest (i + 1)
  | TaskStep.progress p m :: rest, i =>
      CallbackEvent.onProgress p m :: runEvents cancelAt outcome rest (i + 1)
  | TaskStep.sleep :: rest, i => runEvents cancelAt outcome rest (i + 1)

/-- Modelled from the spec: the full callback sequence a submitted Worker
delivers for a task body under a given cancellation schedule. -/
def workerRun {T : Type} (b : TaskBody T) (cancelAt : Option Nat) :
    List (CallbackEvent T) :=
  runEvents cancelAt b.outcome b.steps 0

/-- Progress notification as a callback invocation. -/
def mkProg {T : Type} (pm : Nat × String) : CallbackEvent T :=
  CallbackEvent.onProgress pm.1 pm.2

theorem runEvents_eq {T : Type} (cancelAt : Option Nat) (outcome : TaskOutcome T) :
    ∀ (steps : List TaskStep) (i : Nat),
      runEvents cancelAt outcome steps i =
        ((runSteps cancelAt steps i).1.map (mkProg (T := T))) ++
          [terminalEvent (if (runSteps cancelAt steps i).2 then Terminal.cancelled
            else outcomeTerminal outcome)] := by
  intro steps
  induction steps with
  | nil => intro i; simp [runEvents, runSteps]
  | cons s rest ih =>
    intro i
    cases s with
    | checkpoint =>
      cases hf : flagSet cancelAt i with
      | false => simp [runEvents, runSteps, check_cancelled, hf, ih]
      | true => simp [runEvents, runSteps, check_cancelled, hf, terminalEvent]
    | progress p m => simp [runEvents, runSteps, ih, mkProg]
    | sleep => simp [runEvents, runSteps, ih]

theorem terminalEvent_isTerminal {T : Type} (t : Terminal T) :
    (terminalEvent t).isTerminal = true := by
  cases t <;> simp [terminalEvent, CallbackEvent.isTerminal]

theorem isTerminal_onProgress {T : Type} (p : Nat) (m : String) :
    (CallbackEvent.onProgress (T := T) p m).isTerminal = false := rfl

theorem countP_isTerminal_runEvents {T : Type} (cancelAt : Option Nat)
    (outcome : TaskOutcome T) :
    ∀ (steps : List TaskStep) (i : Nat),
      (runEvents cancelAt outcome steps i).countP (fun e => e.isTerminal) = 1 := by
  intro steps
  induction steps with
  | nil =>
    intro i
    cases outcome <;>
      simp [runEvents, outcomeTerminal, terminalEvent, CallbackEvent.isTerminal]
  | cons s rest ih =>
    intro i
    cases s with
    | checkpoint =>
      cases hf : flagSet cancelAt i with
      | false => simp [runEvents, check_cancelled, hf, ih]
      | true => simp [runEvents, check_cancelled, hf, CallbackEvent.isTerminal]
    | progress p m =>
      simp [runEvents, List.countP_cons, isTerminal_onProgress, ih]
    | sleep => simp [runEvents, ih]

/-- Claim C1: for every Worker produced by submitting a task body, under
every cancellation schedule, the delivered callback sequence contains
exactly one terminal callback invocation (`on_done`, `on_error` or
`on_cancel`): never zero and never two. -/
theorem exactly_one_terminal_callback {T : Type} (b : TaskBody T)
    (cancelAt : Option Nat) :
    (workerRun b cancelAt).countP (fun e => e.isTerminal) = 1 :=
  countP_isTerminal_runEvents cancelAt b.outcome b.steps 0

/-- Claim C4: for every Worker, the delivered callback sequence is exactly
the queued progress notifications, in emission order, followed by the
single terminal callback; in particular a body that emits progress 10 "a"
then progress 90 "b" and returns `r` delivers `on_progress(10,"a")`,
`on_progress(90,"b")`, `on_done(r)` in that order. -/
theorem progress_ordering {T : Type} (b : TaskBody T) (cancelAt : Option Nat)
    (r : String) :
    workerRun b cancelAt =
      ((runBody b cancelAt).1.map (mkProg (T := T))) ++
        [terminalEvent (runBody b cancelAt).2] ∧
    workerRun
        (TaskBody.mk [TaskStep.progress 10 "a", TaskStep.progress 90 "b"]
          (TaskOutcome.ret r)) none =
      [CallbackEvent.onProgress 10 "a", CallbackEvent.onProgress 90 "b",
        CallbackEvent.onDone r] := by
  constructor
  · simpa [workerRun, runBody] using runEvents_eq cancelAt b.outcome b.steps 0
  · rfl

/-- Step index of the first checkpoint of a step list, when there is one. -/
def firstCheckpoint : List TaskStep → Option Nat
  | [] => none
  | TaskStep.checkpoint :: _ => some 0
  | TaskStep.progress _ _ :: rest => (firstCheckpoint rest).map (· + 1)
  | TaskStep.sleep :: rest => (firstCheckpoint rest).map (· + 1)

theorem runSteps_cancelled_before_first_checkpoint (c : Nat) :
    ∀ (steps : List TaskStep) (i k : Nat), firstCheckpoint steps = some k →
      c ≤ i + k → (runSteps (some c) steps i).2 = true := by
  intro steps
  induction steps with
  | nil => intro i k hk _; simp [firstCheckpoint] at hk
  | cons s rest ih =>
    intro i k hk hc
    cases s with
    | checkpoint =>
      have hk0 : (0 : Nat) = k := by simpa [firstCheckpoint] using hk
      have hflag : flagSet (some c) i = true := by
        simp only [flagSet, decide_eq_true_eq]
        omega
      simp [runSteps, check_cancelled, hflag]
    | progress p m =>
      rcases hrest : firstCheckpoint rest with _ | k'
      · rw [firstCheckpoint, hrest] at hk; simp at hk
      · rw [firstCheckpoint, hrest] at hk
        simp at hk
        have : (runSteps (some c) rest (i + 1)).2 = true :=
          ih (i + 1) k' hrest (by omega)
        simp [runSteps, this]
    | sleep =>
      rcases hrest : firstCheckpoint rest with _ | k'
      · rw [firstCheckpoint, hrest] at hk; simp at hk
      · rw [firstCheckpoint, hrest] at hk
        simp at hk
        have : (runSteps (some c) rest (i + 1)).2 = true :=
          ih (i + 1) k' hrest (by omega)
        simp [runSteps, this]

/-- Claim C2: if `cancel()` lands before the task body reaches its first
checkpoint (the token reads true from step `c` on, and the first checkpoint
sits at step `k ≥ c`), the Worker ends `Cancelled`: the delivered sequence
contains `on_cancel` and contains neither `on_done` nor `on_error`. -/
theorem cancellation_precedence {T : Type} (b : TaskBody T) (c k : Nat)
    (hk : firstCheckpoint b.steps = some k) (hc : c ≤ k) :
    (runBody b (some c)).2 = Terminal.cancelled ∧
    CallbackEvent.onCancel ∈ workerRun b (some c) ∧
    (∀ v : T, CallbackEvent.onDone v ∉ workerRun b (some c)) ∧
    (∀ m : String, CallbackEvent.onError m ∉ workerRun b (some c)) := by
  have hcancel : (runSteps (some c) b.steps 0).2 = true :=
    runSteps_cancelled_before_first_checkpoint c b.steps 0 k hk (by omega)
  have hev : workerRun b (some c) =
      ((runSteps (some c) b.steps 0).1.map (mkProg (T := T))) ++
        [CallbackEvent.onCancel] := by
    rw [workerRun, runEvents_eq]
    simp [hcancel, terminalEvent]
  refine ⟨by simp [runBody, hcancel], ?_, ?_, ?_⟩
  · rw [hev]; simp
  · intro v; rw [hev]; simp [mkProg]
  · intro m; rw [hev]; simp [mkProg]

/-- Witness for C2: a body that sleeps, then checks cancellation, then
would return "x", cancelled from step 1, ends Cancelled. -/
theorem cancellation_precedence_witness :
    (runBody (TaskBody.mk [TaskStep.sleep, TaskStep.checkpoint]
      (TaskOutcome.ret "x")) (some 1)).2 = Terminal.cancelled :=
  (cancellation_precedence
    (TaskBody.mk [TaskStep.sleep, TaskStep.checkpoint] (TaskOutcome.ret "x"))
    1 1 rfl (by decide)).1

theorem runSteps_none_not_cancelled :
    ∀ (steps : List TaskStep) (i : Nat), (runSteps none steps i).2 = false := by
  intro steps
  induction steps with
  | nil => intro i; simp [runSteps]
  | cons s rest ih =>
    intro i
    cases s <;> simp [runSteps, check_cancelled, flagSet, ih]

/-- Embedded from `main_window.py`: the outcome of the external process a
task body launches through `_run_rclone`. -/
structure ProcessResult where
  returncode : Int
  stdout : String
  stderr : String

/-- Embedded from `main_window.py` `_run_rclone`: on a nonzero return code
it fails with the stripped stderr, else the stripped stdout, else a fixed
fallback message; on success it yields the stripped nonempty output
lines. -/
def run_rclone (result : ProcessResult) : Except String (List String) :=
  if result.returncode ≠ 0 then
    Except.error
      (if result.stderr.trim ≠ "" then result.stderr.trim
        else if result.stdout.trim ≠ "" then result.stdout.trim
        else "Unknown rclone error")
  else
    Except.ok (((result.stdout.splitOn "\n").map String.trim).filter
      (fun line => line ≠ ""))

/-- Claim C3: a task body that fails with a message `m` other than the
cancellation signal (here: no cancellation is requested, and the body
raises `m`) delivers `on_error` with exactly that message, and neither
`on_done` nor `on_cancel`; and `_run_rclone` renders a failing process
whose stripped stderr is `m ≠ ""` as exactly the message `m`. -/
theorem error_message_propagation {T : Type} (b : TaskBody T) (m : String)
    (hb : b.outcome = TaskOutcome.raiseErr m) :
    (runBody b none).2 = Terminal.errored m ∧
    CallbackEvent.onError m ∈ workerRun b none ∧
    (∀ v : T, CallbackEvent.onDone v ∉ workerRun b none) ∧
    CallbackEvent.onCancel ∉ workerRun b none ∧
    (∀ pr : ProcessResult, pr.returncode ≠ 0 → pr.stderr.trim = m → m ≠ "" →
      run_rclone pr = Except.error m) := by
  have hnc : (runSteps none b.steps 0).2 = false :=
    runSteps_none_not_cancelled b.steps 0
  have hev : workerRun b none =
      ((runSteps none b.steps 0).1.map (mkProg (T := T))) ++
        [CallbackEvent.onError m] := by
    rw [workerRun, runEvents_eq]
    simp [hnc, hb, outcomeTerminal, terminalEvent]
  refine ⟨by simp [runBody, hnc, hb, outcomeTerminal], ?_, ?_, ?_, ?_⟩
  · rw [hev]; simp
  · intro v; rw [hev]; simp [mkProg]
  · rw [hev]; simp [mkProg]
  · intro pr h1 h2 h3
    rw [run_rclone, if_pos h1, if_pos (by rw [h2]; exact h3), h2]

/-- Witness for C3: a body that raises "boom" with no cancellation
requested ends Errored with message "boom". -/
theorem error_message_propagation_witness :
    (runBody (TaskBody.mk ([] : List TaskStep)
      (TaskOutcome.raiseErr (T := String) "boom")) none).2 =
      Terminal.errored "boom" :=
  (error_message_propagation
    (TaskBody.mk ([] : List TaskStep) (TaskOutcome.raiseErr (T := String) "boom"))
    "boom" rfl).1

/-- Modelled from the spec: a Worker's lifecycle state,
`Running → Done | Errored | Cancelled`. -/
inductive Phase where
  | running
  | done
  | errored
  | cancelled
deriving DecidableEq

/-- Whether a lifecycle state is terminal. -/
def Phase.isTerminal : Phase → Bool
  | Phase.running => false
  | Phase.done => true
  | Phase.errored => true
  | Phase.cancelled => true

/-- Modelled from the spec: the mutable state a Worker owns: its lifecycle
state and its CancellationToken flag. -/
structure WorkerState where
  phase : Phase
  tokenRequested : Bool
deriving DecidableEq

/-- The lifecycle state a terminal result moves the Worker into. -/
def phaseOf {T : Type} : Terminal T → Phase
  | Terminal.done _ => Phase.done
  | Terminal.errored _ => Phase.errored
  | Terminal.cancelled => Phase.cancelled

/-- Modelled from the spec: events acting on a Worker: `cancel()` from any
thread, or the background execution finishing with a terminal result. -/
inductive WorkerCmd (T : Type) where
  | cancel
  | finish (t : Terminal T)

/-- Modelled from the spec: one Worker transition and the callbacks it
triggers.  `cancel` only sets the token; the single terminal callback fires
on the first `finish`, and a Worker already terminal never fires again. -/
def workerStep {T : Type} (s : WorkerState) :
    WorkerCmd T → WorkerState × List (CallbackEvent T)
  | WorkerCmd.cancel => ({ s with tokenRequested := true }, [])
  | WorkerCmd.finish t =>
      if s.phase.isTerminal then (s, [])
      else ({ s with phase := phaseOf t }, [terminalEvent t])

/-- Running a sequence of Worker events, collecting triggered callbacks. -/
def workerRunCmds {T : Type} (s : WorkerState) :
    List (WorkerCmd T) → WorkerState × List (CallbackEvent T)
  | [] => (s, [])
  | c :: cs =>
      ((workerRunCmds (workerStep s c).1 cs).1,
        (workerStep s c).2 ++ (workerRunCmds (workerStep s c).1 cs).2)

/-- Claim C6: on a Worker already in a terminal state, any number of
`cancel()` calls leaves the lifecycle state unchanged and triggers no
callback of any kind. -/
theorem cancel_after_terminal_noop {T : Type} (s : WorkerState) (n : Nat)
    (h : s.phase.isTerminal = true) :
    (workerRunCmds s (List.replicate n (WorkerCmd.cancel (T := T)))).1.phase
        = s.phase ∧
    (workerRunCmds s (List.replicate n (WorkerCmd.cancel (T := T)))).2 = [] := by
  induction n generalizing s with
  | zero => simp [workerRunCmds]
  | succ n ih =>
    have step := ih { s with tokenRequested := true } h
    simpa [List.replicate_succ, workerRunCmds, workerStep] using step

/-- Witness for C6: two cancel calls on a Done Worker leave it Done. -/
theorem cancel_after_terminal_noop_witness :
    (workerRunCmds (WorkerState.mk Phase.done false)
      (List.replicate 2 (WorkerCmd.cancel (T := String)))).1.phase =
      Phase.done :=
  (cancel_after_terminal_noop (WorkerState.mk Phase.done false) 2 rfl).1

theorem runSteps_no_checkpoint_not_cancelled (cancelAt : Option Nat) :
    ∀ (steps : List TaskStep) (i : Nat), TaskStep.checkpoint ∉ steps →
      (runSteps cancelAt steps i).2 = false := by
  intro steps
  induction steps with
  | nil => intro i _; simp [runSteps]
  | cons s rest ih =>
    intro i hmem
    have hs : s ≠ TaskStep.checkpoint := fun hcontra => hmem (by simp [hcontra])
    have hrest : TaskStep.checkpoint ∉ rest := fun hcontra => hmem (by simp [hcontra])
    cases s with
    | checkpoint => exact absurd rfl hs
    | progress p m => simp [runSteps, ih _ hrest]
    | sleep => simp [runSteps, ih _ hrest]

/-- Claim C7: `check_cancelled` returns normally exactly when the owning
token's flag is clear, and signals the distinguished operation-cancelled
condition when it is set; the harness renders a cancelled unwind as the
`on_cancel` callback; and a checkpoint is the only way a body observes
cancellation: a body with no checkpoint never yields `on_cancel`, under any
cancellation schedule. -/
theorem check_cancelled_contract :
    (∀ flag : Bool, check_cancelled flag = Except.ok () ↔ flag = false) ∧
    (∀ flag : Bool, flag = true →
      check_cancelled flag = Except.error CancelSignal.operationCancelled) ∧
    (∀ (T : Type) (b : TaskBody T) (cancelAt : Option Nat),
      (runBody b cancelAt).2 = Terminal.cancelled →
        terminalEvent (runBody b cancelAt).2 = CallbackEvent.onCancel) ∧
    (∀ (T : Type) (b : TaskBody T) (cancelAt : Option Nat),
      TaskStep.checkpoint ∉ b.steps →
        CallbackEvent.onCancel ∉ workerRun b cancelAt) := by
  refine ⟨?_, ?_, ?_, ?_⟩
  · intro flag; cases flag <;> simp [check_cancelled]
  · intro flag hflag; simp [check_cancelled, hflag]
  · intro T b cancelAt hterm; rw [hterm]; rfl
  · intro T b cancelAt hmem
    have hnc : (runSteps cancelAt b.steps 0).2 = false :=
      runSteps_no_checkpoint_not_cancelled cancelAt b.steps 0 hmem
    rw [workerRun, runEvents_eq]
    cases hb : b.outcome <;> simp [hnc, hb, outcomeTerminal, terminalEvent, mkProg]

/-- Witness for C7: a set token makes the checkpoint raise the
distinguished cancellation condition. -/
theorem check_cancelled_contract_witness :
    check_cancelled true = Except.error CancelSignal.operationCancelled :=
  check_cancelled_contract.2.1 true rfl

/-- Embedded from `main_window.py`: an external action one of the worker
managing slots performs: cancelling a prior Worker, submitting a request to
the pool, or showing a message dialog. -/
inductive UIEffect where
  | cancelWorker (id : Nat)
  | submitWorker (id : Nat)
  | showInfoDialog (title : String) (message : String)
deriving DecidableEq

/-- Embedded from `main_window.py`: the per-operation Worker slots the
window tracks, each holding the id of its live Worker when one exists. -/
structure MWWorkers where
  remote_worker : Option Nat
  folder_worker : Option Nat
  tree_worker : Option Nat
  active_worker : Option Nat
deriving DecidableEq

/-- Embedded from `main_window.py` `_load_remotes`: cancel the prior remote
Worker when one is live, then submit a replacement and store it. -/
def load_remotes (s : MWWorkers) (newId : Nat) : MWWorkers × List UIEffect :=
  match s.remote_worker with
  | some w =>
      ({ s with remote_worker := some newId },
        [UIEffect.cancelWorker w, UIEffect.submitWorker newId])
  | none =>
      ({ s with remote_worker := some newId }, [UIEffect.submitWorker newId])

/-- Embedded from `main_window.py` `_load_children_for_item`: cancel the
prior tree Worker when one is live, then submit a replacement and store
it. -/
def load_children_for_item (s : MWWorkers) (newId : Nat) :
    MWWorkers × List UIEffect :=
  match s.tree_worker with
  | some w =>
      ({ s with tree_worker := some newId },
        [UIEffect.cancelWorker w, UIEffect.submitWorker newId])
  | none =>
      ({ s with tree_worker := some newId }, [UIEffect.submitWorker newId])

/-- Embedded from `main_window.py` `on_run_work`: when a demo Worker is
already live, show an information dialog and submit nothing; otherwise
submit a new Worker and store it. -/
def on_run_work (s : MWWorkers) (newId : Nat) : MWWorkers × List UIEffect :=
  match s.active_worker with
  | some _ =>
      (s, [UIEffect.showInfoDialog "Background work" "Work is already running."])
  | none =>
      ({ s with active_worker := some newId }, [UIEffect.submitWorker newId])

/-- The C5 claim as stated: each of the three operations, on re-entry while
its prior Worker is live, cancels the prior Worker and submits a
replacement. -/
def cancelAndReplaceAllThree : Prop :=
  (∀ (s : MWWorkers) (newId w : Nat), s.remote_worker = some w →
    UIEffect.cancelWorker w ∈ (load_remotes s newId).2 ∧
    UIEffect.submitWorker newId ∈ (load_remotes s newId).2) ∧
  (∀ (s : MWWorkers) (newId w : Nat), s.tree_worker = some w →
    UIEffect.cancelWorker w ∈ (load_children_for_item s newId).2 ∧
    UIEffect.submitWorker newId ∈ (load_children_for_item s newId).2) ∧
  (∀ (s : MWWorkers) (newId w : Nat), s.active_worker = some w →
    UIEffect.cancelWorker w ∈ (on_run_work s newId).2 ∧
    UIEffect.submitWorker newId ∈ (on_run_work s newId).2)

/-- Counterexample to C5 as stated: with demo Worker 0 live, `on_run_work`
only shows a dialog — it neither cancels Worker 0 nor submits a
replacement. -/
theorem run_work_does_not_cancel_and_replace : ¬ cancelAndReplaceAllThree := by
  intro h
  have hmem := (h.2.2 (MWWorkers.mk none none none (some 0)) 1 0 rfl).1
  simp [on_run_work] at hmem

/-- Claim C5 amended: loading remotes and loading folder children each
cancel the live prior Worker and submit a replacement on re-entry, storing
the new Worker as the single live one; the demo task instead keeps at most
one live Worker by refusing re-entry: while one is live, `on_run_work`
leaves all state unchanged and only shows an information dialog, and only
submits when no demo Worker is live. -/
theorem one_live_worker_per_operation (s : MWWorkers) (newId : Nat) :
    (∀ w, s.remote_worker = some w →
      (load_remotes s newId).2 =
        [UIEffect.cancelWorker w, UIEffect.submitWorker newId]) ∧
    (s.remote_worker = none →
      (load_remotes s newId).2 = [UIEffect.submitWorker newId]) ∧
    (load_remotes s newId).1.remote_worker = some newId ∧
    (∀ w, s.tree_worker = some w →
      (load_children_for_item s newId).2 =
        [UIEffect.cancelWorker w, UIEffect.submitWorker newId]) ∧
    (load_children_for_item s newId).1.tree_worker = some newId ∧
    (∀ w, s.active_worker = some w →
      on_run_work s newId =
        (s, [UIEffect.showInfoDialog "Background work"
          "Work is already running."])) ∧
    (s.active_worker = none →
      on_run_work s newId =
        ({ s with active_worker := some newId },
          [UIEffect.submitWorker newId])) := by
  refine ⟨?_, ?_, ?_, ?_, ?_, ?_, ?_⟩
  · intro w hw; simp [load_remotes, hw]
  · intro hw; simp [load_remotes, hw]
  · cases hw : s.remote_worker <;> simp [load_remotes, hw]
  · intro w hw; simp [load_children_for_item, hw]
  · cases hw : s.tree_worker <;> simp [load_children_for_item, hw]
  · intro w hw; simp [on_run_work, hw]
  · intro hw; simp [on_run_work, hw]

/-- Witness for amended C5: with remote Worker 7 live, reloading remotes
cancels 7 then submits 9. -/
theorem one_live_worker_per_operation_witness :
    (load_remotes (MWWorkers.mk (some 7) none none none) 9).2 =
      [UIEffect.cancelWorker 7, UIEffect.submitWorker 9] :=
  (one_live_worker_per_operation (MWWorkers.mk (some 7) none none none) 9).1 7 rfl

/-- Embedded from `main_window.py`: the demo-worker slice of the window
state: the `active_worker` slot, whether the UI is in the working state
(run disabled, cancel enabled), and whether a submitted demo Worker is
still in flight (its terminal callback not yet delivered). -/
structure DemoSys where
  active_worker : Option Nat
  working : Bool
  inFlight : Bool
deriving DecidableEq

/-- Events driving the demo-worker slice: the run action, the three
terminal callbacks of `on_run_work`, and the cancel button. -/
inductive DemoEvent where
  | runWork (newId : Nat)
  | termDone
  | termCancelled
  | termError
  | cancelClick
deriving DecidableEq

/-- Initial demo-worker state: no Worker, non-working UI. -/
def demoInit : DemoSys := DemoSys.mk none false false

/-- Embedded from `main_window.py`: `on_run_work` submits and enters the
working state only when `active_worker` is None; each of the `done`,
`cancelled` and `error` callbacks resets `active_worker` to None and
restores the non-working state; cancelling only requests the token. -/
def demoStep (s : DemoSys) : DemoEvent → DemoSys
  | DemoEvent.runWork newId =>
      match s.active_worker with
      | some _ => s
      | none => DemoSys.mk (some newId) true true
  | DemoEvent.termDone =>
      if s.inFlight then DemoSys.mk none false false else s
  | DemoEvent.termCancelled =>
      if s.inFlight then DemoSys.mk none false false else s
  | DemoEvent.termError =>
      if s.inFlight then DemoSys.mk none false false else s
  | DemoEvent.cancelClick => s

/-- Invariant: `active_worker` is set exactly while a demo Worker is in
flight, and exactly then is the UI in the working state. -/
def demoInv (s : DemoSys) : Prop :=
  s.active_worker.isSome = s.inFlight ∧ s.working = s.inFlight

theorem demoStep_preserves (s : DemoSys) (e : DemoEvent) (h : demoInv s) :
    demoInv (demoStep s e) := by
  rcases h with ⟨h1, h2⟩
  cases e with
  | runWork newId =>
    cases ha : s.active_worker <;> simp_all [demoStep, demoInv, ha]
  | termDone =>
    cases hf : s.inFlight <;> simp_all [demoStep, demoInv, hf]
  | termCancelled =>
    cases hf : s.inFlight <;> simp_all [demoStep, demoInv, hf]
  | termError =>
    cases hf : s.inFlight <;> simp_all [demoStep, demoInv, hf]
  | cancelClick => exact ⟨h1, h2⟩

theorem demo_foldl_preserves :
    ∀ (evs : List DemoEvent) (s : DemoSys), demoInv s →
      demoInv (evs.foldl demoStep s) := by
  intro evs
  induction evs with
  | nil => intro s h; exact h
  | cons e rest ih => intro s h; exact ih (demoStep s e) (demoStep_preserves s e h)

/-- Claim C10: along every event sequence of the demo-worker slice,
`active_worker` is non-None exactly while a demo task is in flight, and the
UI is in the working state exactly then: submission happens only from the
empty slot and every terminal callback clears it and restores the
non-working state. -/
theorem at_most_one_demo_worker (evs : List DemoEvent) :
    demoInv (evs.foldl demoStep demoInit) :=
  demo_foldl_preserves evs demoInit ⟨rfl, rfl⟩

/-- Embedded from `core/single_instance.py`: the environment responses the
guard depends on: whether the local-socket connection to a prior instance
succeeds, whether the local server starts listening, and whether a socket
write is flushed. -/
structure SIEnv where
  connectSucceeds : Bool
  listenSucceeds : Bool
  writeSucceeds : Bool
deriving DecidableEq

/-- Embedded from `core/single_instance.py`: the mutable fields of
`SingleInstanceGuard`: the held local socket (None or a handle), the local
server, and the internal running flag. -/
structure GuardState where
  socket : Option Unit
  server : Option Unit
  isRunningFlag : Bool
deriving DecidableEq

/-- Embedded from `core/single_instance.py`
`is_another_instance_running`: create a socket and try to connect; on
success disconnect, drop the socket to None and report True; on failure
keep the fresh socket, create the listening server and report False. -/
def is_another_instance_running (env : SIEnv) (s : GuardState) :
    Bool × GuardState :=
  if env.connectSucceeds then
    (true, { s with socket := none })
  else
    (false, GuardState.mk (some ()) (some ())
      (s.isRunningFlag || env.listenSucceeds))

/-- Embedded from `core/single_instance.py`
`send_message_to_existing_instance`: with no held socket return False and
write nothing; otherwise write the message and report whether the write was
flushed.  The result pairs the returned flag and resulting state with the
list of bytes written. -/
def send_message_to_existing_instance (env : SIEnv) (s : GuardState)
    (message : String) : (Bool × GuardState) × List String :=
  match s.socket with
  | none => ((false, s), [])
  | some _ => ((env.writeSucceeds, s), [message])

/-- A sequence of send attempts on one guard: the returned flags and all
bytes written. -/
def sendAll (s : GuardState) :
    List (SIEnv × String) → List Bool × List String
  | [] => ([], [])
  | (env, msg) :: rest =>
      ((send_message_to_existing_instance env s msg).1.1 ::
          (sendAll (send_message_to_existing_instance env s msg).1.2 rest).1,
        (send_message_to_existing_instance env s msg).2 ++
          (sendAll (send_message_to_existing_instance env s msg).1.2 rest).2)

theorem sendAll_no_socket (calls : List (SIEnv × String)) :
    ∀ (s : GuardState), s.socket = none →
      sendAll s calls = (List.replicate calls.length false, []) := by
  induction calls with
  | nil => intro s _; simp [sendAll]
  | cons c rest ih =>
    intro s hs
    have hsend : send_message_to_existing_instance c.1 s c.2 = ((false, s), []) := by
      simp [send_message_to_existing_instance, hs]
    simp [sendAll, hsend, ih s hs, List.replicate_succ]

/-- Claim C8: whenever `is_another_instance_running` reports that another
instance is running, it has dropped the guard's socket to None, so every
subsequent `send_message_to_existing_instance` call on that guard returns
False and writes nothing: the secondary instance can never deliver the
activation message. -/
theorem secondary_instance_cannot_send (env : SIEnv) (s : GuardState)
    (h : (is_another_instance_running env s).1 = true) :
    (is_another_instance_running env s).2.socket = none ∧
    (∀ calls : List (SIEnv × String),
      sendAll (is_another_instance_running env s).2 calls =
        (List.replicate calls.length false, [])) := by
  have hc : env.connectSucceeds = true := by
    by_contra hc
    simp [is_another_instance_running, hc] at h
  have hsock : (is_another_instance_running env s).2.socket = none := by
    simp [is_another_instance_running, hc]
  exact ⟨hsock, fun calls => sendAll_no_socket calls _ hsock⟩

/-- Witness for C8: after detecting a prior instance, one send attempt
returns False and writes nothing. -/
theorem secondary_instance_cannot_send_witness :
    sendAll (is_another_instance_running (SIEnv.mk true true true)
        (GuardState.mk none none false)).2
      [(SIEnv.mk true true true, "activate")] = ([false], []) :=
  (secondary_instance_cannot_send (SIEnv.mk true true true)
    (GuardState.mk none none false) rfl).2
    [(SIEnv.mk true true true, "activate")]

/-- Embedded from `core/exceptions.py`: the triple `sys.excepthook` passes
to the installed hook, kept abstract. -/
structure ExcInfo where
  excType : String
  excValue : String
  traceback : String
deriving DecidableEq

/-- Embedded from `core/exceptions.py`: what the hook body observes of its
environment: whether a QApplication instance exists, the visibility of its
top-level widgets, and whether building the dialog (factory call or
ErrorDialog constructor) or running `dialog.exec()` raises. -/
structure HookEnv where
  appExists : Bool
  widgetsVisible : List Bool
  ctorRaises : Bool
  execRaises : Bool
deriving DecidableEq

/-- What a hook run did: how many dialogs it constructed and whether it
ended by raising. -/
structure HookResult where
  dialogsShown : Nat
  raised : Bool
deriving DecidableEq

/-- Embedded from `core/exceptions.py` `excepthook`, body inside the
suppression block: return early with no dialog when no QApplication
exists; otherwise pick the first visible top-level widget as parent, build
the dialog and run it, raising when either of those raises. -/
def innerHook (env : HookEnv) : HookResult :=
  if env.appExists then
    let _parent := env.widgetsVisible.find? (fun v => v)
    if env.ctorRaises then HookResult.mk 0 true
    else HookResult.mk 1 env.execRaises
  else HookResult.mk 0 false

/-- Embedded from `core/exceptions.py` `excepthook`: the full hook wraps
its body in suppression of every exception, so it always returns
normally. -/
def excepthook (env : HookEnv) (_info : ExcInfo) : HookResult :=
  { innerHook env with raised := false }

/-- Claim C9: the installed exception hook returns normally for every input
triple: whatever its body raises is suppressed; and when no QApplication
instance exists it returns without constructing or showing any dialog. -/
theorem exception_hook_total_and_quiet (env : HookEnv) (info : ExcInfo) :
    (excepthook env info).raised = false ∧
    (env.appExists = false → (excepthook env info).dialogsShown = 0) := by
  constructor
  · rfl
  · intro h; simp [excepthook, innerHook, h]

/-- Witness for C9: with no QApplication, the hook shows no dialog. -/
theorem exception_hook_total_and_quiet_witness :
    (excepthook (HookEnv.mk false [] false false)
      (ExcInfo.mk "RuntimeError" "boom" "tb")).dialogsShown = 0 :=
  (exception_hook_total_and_quiet (HookEnv.mk false [] false false)
    (ExcInfo.mk "RuntimeError" "boom" "tb")).2 rfl

end TreeCloudDrive
